import Mathlib

/-!
Verification of the conversation/response-resolution logic of `app.py`
(a Streamlit chatbot front-end): FAQ short-circuiting, remote request
construction, response classification, history append and truncation,
and the persistence helper.  The Python code is embedded shallowly:
`st.session_state.gemini_history` becomes an explicit list argument and
result, the outcome of the HTTP call (`requests.post` + `raise_for_status`
+ `.json()`) becomes an explicit `RemoteOutcome` argument, and the
Streamlit side effects `st.error` / `st.warning` become lists of reported
messages in the result record.
-/

namespace ChatApp

/-- ASCII lowercasing, character by character: the embedding of Python
`str.lower()` as applied to the (all-ASCII) messages and FAQ keys. -/
def lowerStr (s : String) : String := ⟨s.data.map Char.toLower⟩

/-- `needle` occurs as a contiguous run inside `hay` (character lists). -/
def containsSub (needle hay : List Char) : Bool :=
  match hay with
  | [] => needle.isEmpty
  | _ :: t => needle.isPrefixOf hay || containsSub needle t

/-- Python `needle in hay` substring test on strings. -/
def strContains (hay needle : String) : Bool := containsSub needle.data hay.data

/-- `CHATBOT_NAME` from app.py line 17. -/
def CHATBOT_NAME : String := "Membership & Subscription Assistant"

/-- `DOMAIN_CONTEXT` from app.py lines 18-37 (the triple-quoted priming
instruction, leading and trailing newline included). -/
def DOMAIN_CONTEXT : String :=
  "\nYou are a customer service chatbot for a 'Membership and Subscription Manager' service.\nYour primary goal is to assist users with inquiries related to managing their memberships and subscriptions.\nThis includes questions about:\n- Signing up for new services\n- Cancelling existing subscriptions\n- Upgrading or downgrading membership plans\n- Payment issues and billing inquiries\n- Understanding membership benefits\n- Troubleshooting account access\n- Resetting passwords for the membership portal\n- Finding information about specific subscription terms and conditions\n\nPlease keep your responses focused ONLY on these topics.\nIf a user asks something outside of this domain, you MUST politely state that you can only help with membership and subscription-related queries and cannot answer the out-of-domain request.\nDo not attempt to answer questions outside this scope.\nBe friendly, helpful, and concise in your answers within the defined domain.\nIf you provide lists, use hyphens or asterisks for bullet points.\nUse bolding with double asterisks **like this** for emphasis if it's natural in the response.\n"

/-- The `FAQS` dict of app.py lines 40-50, in definition (= iteration) order.
Python 3.7+ dicts iterate in insertion order, so an association list is the
faithful embedding.  The two f-strings interpolate `CHATBOT_NAME`. -/
def FAQS : List (String × String) :=
  [ ("how to cancel subscription", "You can cancel your subscription by going to your account settings page and clicking on 'Cancel Subscription'. Would you like a direct link to your account settings?"),
    ("cancel my membership", "To cancel your membership, please log in to your account, navigate to the 'Membership Details' section, and you should find an option to cancel. If you need further assistance, I can guide you."),
    ("how to sign up", "To sign up for a new membership, please visit our website's homepage and look for the 'Sign Up' or 'Join Now' button. You'll be guided through the process. Our service helps you manage all your various subscriptions in one place!"),
    ("payment methods", "We accept various payment methods including major credit cards (Visa, MasterCard, American Express) and PayPal. You can manage your payment methods in the 'Billing Information' section of your account."),
    ("forgot password", "If you've forgotten your password, you can reset it by clicking the 'Forgot Password?' link on the login page. You'll receive an email with instructions to create a new password."),
    ("contact support", "If you need to speak with a human support agent, you can usually find a 'Contact Us' or 'Support' link on our website, which may offer options like live chat, email, or a phone number."),
    ("what is this service", "This is the **" ++ CHATBOT_NAME ++ "**. I can help you manage your various memberships and subscriptions, answer questions about your account, billing, and service features."),
    ("upgrade plan", "To upgrade your plan, please log into your account and go to the 'Subscription' or 'Plan Details' section. You should see options to upgrade to a higher tier. What specific plan are you interested in?"),
    ("billing issue", "I'm sorry to hear you're having a billing issue. Could you please provide more details about the problem? For example, are you seeing an incorrect charge, or is a payment failing?") ]

/-- One `gemini_history` entry: `{"role": r, "parts": [{"text": t}]}`.
The code only ever builds a single text part, so the parts list collapses
to one text field. -/
structure Turn where
  role : String
  text : String
deriving DecidableEq, Repr

/-- The initial `st.session_state.gemini_history` (app.py lines 115-119):
the fixed priming pair. -/
def primingUserTurn : Turn := ⟨"user", DOMAIN_CONTEXT⟩

/-- The model half of the priming pair (app.py line 118). -/
def primingModelTurn : Turn :=
  ⟨"model", "Understood. I am the **" ++ CHATBOT_NAME ++ "**. I will ONLY answer questions related to managing memberships and subscriptions as outlined. If a query is outside this scope, I will inform you that I cannot assist with it."⟩

/-- `gemini_history` at session start. -/
def initialGeminiHistory : List Turn := [primingUserTurn, primingModelTurn]

/-- One `{"text": ...}` part of a candidate of the parsed JSON response;
`text` is `none` when the key is absent (the code reads it with
`.get("text", default)`). -/
structure Part where
  text : Option String
deriving DecidableEq, Repr

/-- `candidates[i].content` of the parsed response. -/
structure Content where
  parts : Option (List Part)
deriving DecidableEq, Repr

/-- One element of `candidates` of the parsed response. -/
structure Candidate where
  content : Option Content
deriving DecidableEq, Repr

/-- `promptFeedback` of the parsed response. -/
structure PromptFeedback where
  blockReason : Option String
deriving DecidableEq, Repr

/-- The parsed JSON body (`result = response_api.json()`), restricted to the
fields the code reads. `none` stands for an absent key (Python `.get`
returning `None`); an absent key and an empty/falsy value classify the same
way below, exactly as Python truthiness does in the code's conditions. -/
structure GeminiResult where
  candidates : Option (List Candidate)
  promptFeedback : Option PromptFeedback
deriving DecidableEq, Repr

/-- The truthiness chain of app.py lines 170-173:
`result.get("candidates") and result["candidates"][0].get("content") and
result["candidates"][0]["content"].get("parts") and len(parts) > 0`.
Returns the first part of the first candidate when every test is truthy. -/
def firstPartOfResult (result : GeminiResult) : Option Part :=
  match result.candidates with
  | some (c :: _) =>
    match c.content with
    | some ct =>
      match ct.parts with
      | some (p :: _) => some p
      | _ => none
    | none => none
  | _ => none

/-- App.py line 175: `result.get("promptFeedback") and
result["promptFeedback"].get("blockReason")`.  A missing feedback object, a
missing reason, and an empty-string reason (falsy in Python) all fail the
test. -/
def blockReasonOfResult (result : GeminiResult) : Option String :=
  match result.promptFeedback with
  | some pf =>
    match pf.blockReason with
    | some r => if r.data.isEmpty then none else some r
    | none => none
  | none => none

/-- The observable outcome of `requests.post` + `raise_for_status` +
`.json()` at app.py lines 165-168, as seen by the `try`/`except` ladder:
`timeout` is `requests.exceptions.Timeout`; `httpError` is the
`requests.exceptions.HTTPError` that `raise_for_status` raises on a non-2xx
status (a subclass of `RequestException`); `requestError` is any other
`requests.exceptions.RequestException` (transport/connection failure);
`otherError` is any other exception during request or parse; `response`
carries the parsed JSON body on success. -/
inductive RemoteOutcome where
  | timeout
  | httpError (msg : String)
  | requestError (msg : String)
  | otherError (msg : String)
  | response (result : GeminiResult)
deriving DecidableEq, Repr

/-- App.py line 146. -/
def missingKeyReply : String :=
  "Sorry, the chatbot is not configured correctly (missing API key)."

/-- The default of the `.get("text", ...)` at app.py line 174. -/
def noTextReply : String := "Sorry, I couldn't generate a response for that."

/-- The templated refusal of app.py line 177. -/
def blockedReply (block_reason : String) : String :=
  "I am unable to respond to that request due to content restrictions (" ++ block_reason ++ "). Please ask a question related to memberships and subscriptions."

/-- App.py line 180. -/
def unexpectedReply : String :=
  "Sorry, I received an unexpected response from the AI. Please try asking in a different way."

/-- App.py line 185. -/
def timeoutReply : String := "Sorry, the request to my AI brain timed out."

/-- App.py line 188. -/
def connectionReply : String :=
  "Sorry, I'm having trouble connecting to my brain right now. Please try again."

/-- App.py line 191. -/
def unexpectedErrorReply : String := "An unexpected error occurred. Please try again."

/-- The `generationConfig` dict of app.py lines 151-156. -/
structure GenerationConfig where
  temperature : Rat
  topK : Nat
  topP : Rat
  maxOutputTokens : Nat
deriving DecidableEq, Repr

/-- The fixed generation configuration sent on every remote call. -/
def GENERATION_CONFIG : GenerationConfig :=
  { temperature := 0.6, topK := 1, topP := 0.95, maxOutputTokens := 512 }

/-- One element of the `safetySettings` list (app.py lines 157-162). -/
structure SafetySetting where
  category : String
  threshold : String
deriving DecidableEq, Repr

/-- The fixed safety settings sent on every remote call. -/
def SAFETY_SETTINGS : List SafetySetting :=
  [ ⟨"HARM_CATEGORY_HARASSMENT", "BLOCK_MEDIUM_AND_ABOVE"⟩,
    ⟨"HARM_CATEGORY_HATE_SPEECH", "BLOCK_MEDIUM_AND_ABOVE"⟩,
    ⟨"HARM_CATEGORY_SEXUALLY_EXPLICIT", "BLOCK_MEDIUM_AND_ABOVE"⟩,
    ⟨"HARM_CATEGORY_DANGEROUS_CONTENT", "BLOCK_MEDIUM_AND_ABOVE"⟩ ]

/-- The JSON `payload` dict of app.py lines 149-163. -/
structure Payload where
  contents : List Turn
  generationConfig : GenerationConfig
  safetySettings : List SafetySetting
deriving DecidableEq, Repr

/-- One `requests.post(...)` call: its body and its `timeout=30` argument
(app.py line 165). -/
structure RequestRecord where
  payload : Payload
  timeoutSeconds : Nat
deriving DecidableEq, Repr

/-- What the `try` body (after a received response) or an `except` handler
produces: the `bot_reply` string plus the `st.warning` / `st.error` messages
emitted on the way (app.py lines 168-191).  The warning for an unexpected
structure interpolates the whole `result` in the code; the model keeps the
fixed prefix of that message. -/
structure RemoteReply where
  bot_reply : String
  warnings : List String
  errors : List String
deriving DecidableEq, Repr

/-- Classification of the remote outcome by the `if`/`elif`/`else` of app.py
lines 170-181 and the `except` ladder of lines 183-191.  `httpError` lands in
the `RequestException` handler because `HTTPError` subclasses it. -/
def classifyOutcome (outcome : RemoteOutcome) : RemoteReply :=
  match outcome with
  | .response result =>
    match firstPartOfResult result with
    | some p => { bot_reply := p.text.getD noTextReply, warnings := [], errors := [] }
    | none =>
      match blockReasonOfResult result with
      | some block_reason =>
        { bot_reply := blockedReply block_reason,
          warnings := ["Gemini API blocked prompt. Reason: " ++ block_reason],
          errors := [] }
      | none =>
        { bot_reply := unexpectedReply,
          warnings := ["Unexpected Gemini API response structure."],
          errors := [] }
  | .timeout =>
    { bot_reply := timeoutReply, warnings := [],
      errors := ["Error: The request to the AI service timed out. Please try again shortly."] }
  | .httpError msg =>
    { bot_reply := connectionReply, warnings := [],
      errors := ["Error calling Gemini API: " ++ msg] }
  | .requestError msg =>
    { bot_reply := connectionReply, warnings := [],
      errors := ["Error calling Gemini API: " ++ msg] }
  | .otherError msg =>
    { bot_reply := unexpectedErrorReply, warnings := [],
      errors := ["An unexpected error occurred: " ++ msg] }

/-- `MAX_HISTORY_TURNS` of app.py line 197. -/
def MAX_HISTORY_TURNS : Nat := 10

/-- The truncation step of app.py lines 198-199:
`history[:2] + history[-(MAX_HISTORY_TURNS*2):]` when the bound is exceeded.
For a list longer than the bound, Python `l[-n:]` is `drop (length - n)`. -/
def truncateHistory (gemini_history : List Turn) : List Turn :=
  if gemini_history.length > MAX_HISTORY_TURNS * 2 + 2 then
    gemini_history.take 2 ++ gemini_history.drop (gemini_history.length - MAX_HISTORY_TURNS * 2)
  else gemini_history

/-- Python `if not GEMINI_API_KEY` (app.py line 144): the environment
variable is absent (`None`) or the empty string — both falsy. -/
def apiKeyMissing : Option String → Bool
  | none => true
  | some k => k.data.isEmpty

/-- The FAQ scan of app.py lines 137-138: first key (in `FAQS` order) that is
a substring of the lowercased message, together with its canned answer. -/
def faqLookup (user_message : String) : Option (String × String) :=
  FAQS.find? (fun kv => strContains (lowerStr user_message) kv.1)

/-- The full observable result of one `get_bot_response` call: the returned
reply, the new `gemini_history`, the remote request made (`none` when no
HTTP call was attempted), and the `st.warning` / `st.error` messages. -/
structure ResolveResult where
  reply : String
  gemini_history : List Turn
  request : Option RequestRecord
  warnings : List String
  errors : List String
deriving DecidableEq, Repr

/-- `get_bot_response` of app.py lines 132-201, with the session state and
the HTTP outcome made explicit.  Step numbering follows the code:
1. append the user turn; 2. FAQ scan with early return (no truncation);
3. missing-key early return (no model turn appended, no request);
otherwise build the payload from the current history, classify the outcome;
4. append the model turn; 5. truncate. -/
def get_bot_response (GEMINI_API_KEY : Option String) (outcome : RemoteOutcome)
    (history : List Turn) (user_message : String) : ResolveResult :=
  let hist1 := history ++ [⟨"user", user_message⟩]
  match faqLookup user_message with
  | some kv =>
    { reply := kv.2, gemini_history := hist1 ++ [⟨"model", kv.2⟩],
      request := none, warnings := [], errors := [] }
  | none =>
    if apiKeyMissing GEMINI_API_KEY then
      { reply := missingKeyReply, gemini_history := hist1, request := none,
        warnings := [],
        errors := ["GEMINI_API_KEY not found. Please set it in your .env file."] }
    else
      let rr := classifyOutcome outcome
      { reply := rr.bot_reply,
        gemini_history := truncateHistory (hist1 ++ [⟨"model", rr.bot_reply⟩]),
        request := some { payload := { contents := hist1,
                                       generationConfig := GENERATION_CONFIG,
                                       safetySettings := SAFETY_SETTINGS },
                          timeoutSeconds := 30 },
        warnings := rr.warnings, errors := rr.errors }

/-- Outcome of the SQLite operations inside `save_message_to_db` (app.py
lines 78-92): `connectError` is a `sqlite3.Error` raised by
`sqlite3.connect` itself (e.g. the database file cannot be opened), before
`conn` is ever assigned; `insertError` is a `sqlite3.Error` raised by
`execute`/`commit` after `conn` was assigned. -/
inductive DbOutcome where
  | ok
  | insertError (msg : String)
  | connectError (msg : String)
deriving DecidableEq, Repr

/-- The observable result of one `save_message_to_db` call: the `st.error`
reports emitted, and the exception escaping the call (`none` = the call
returns normally). -/
structure DbResult where
  reported : List String
  raised : Option String
deriving DecidableEq, Repr

/-- `save_message_to_db` of app.py lines 78-92.  On `connectError` the
`except sqlite3.Error` block reports the error, but the `finally` block then
evaluates `if conn:` with the local `conn` never assigned (the exception was
raised by `sqlite3.connect` on line 81 before the assignment completed), so
Python raises `UnboundLocalError` out of the `finally` block and the call
does not return normally.  On `insertError`, `conn` is bound, the error is
reported and `conn.close()` succeeds. -/
def save_message_to_db (session_id role content : String) (outcome : DbOutcome) : DbResult :=
  match session_id, role, content, outcome with
  | _, _, _, .ok => { reported := [], raised := none }
  | _, _, _, .insertError msg =>
    { reported := ["Database error during save: " ++ msg], raised := none }
  | _, _, _, .connectError msg =>
    { reported := ["Database error during save: " ++ msg],
      raised := some "UnboundLocalError: local variable 'conn' referenced before assignment" }

set_option maxRecDepth 40000

/-! Helper lemmas: one unfolding lemma per control-flow path of
`get_bot_response`, and small facts about truncation and substrings. -/

/-- On the remote-call path (no FAQ hit, credential present) the result is
the classified outcome, the appended-then-truncated history, and the fixed
request record. -/
theorem resolve_remote_eq (k : Option String) (o : RemoteOutcome) (h : List Turn) (m : String)
    (hfaq : faqLookup m = none) (hkey : apiKeyMissing k = false) :
    get_bot_response k o h m =
      { reply := (classifyOutcome o).bot_reply,
        gemini_history := truncateHistory
          (h ++ [Turn.mk "user" m, Turn.mk "model" (classifyOutcome o).bot_reply]),
        request := some { payload := { contents := h ++ [Turn.mk "user" m],
                                       generationConfig := GENERATION_CONFIG,
                                       safetySettings := SAFETY_SETTINGS },
                          timeoutSeconds := 30 },
        warnings := (classifyOutcome o).warnings,
        errors := (classifyOutcome o).errors } := by
  simp [get_bot_response, hfaq, hkey]

/-- On the missing-credential path only the user turn is appended and no
request record is produced. -/
theorem resolve_nokey_eq (k : Option String) (o : RemoteOutcome) (h : List Turn) (m : String)
    (hfaq : faqLookup m = none) (hkey : apiKeyMissing k = true) :
    get_bot_response k o h m =
      { reply := missingKeyReply, gemini_history := h ++ [Turn.mk "user" m], request := none,
        warnings := [],
        errors := ["GEMINI_API_KEY not found. Please set it in your .env file."] } := by
  simp [get_bot_response, hfaq, hkey]

/-- On the FAQ-hit path the canned answer is returned and appended, with no
request record and no truncation. -/
theorem resolve_faq_eq (k : Option String) (o : RemoteOutcome) (h : List Turn) (m : String)
    (kv : String × String) (hfaq : faqLookup m = some kv) :
    get_bot_response k o h m =
      { reply := kv.2,
        gemini_history := h ++ [Turn.mk "user" m, Turn.mk "model" kv.2],
        request := none, warnings := [], errors := [] } := by
  simp [get_bot_response, hfaq]

/-- Truncation never touches the first two entries. -/
theorem truncateHistory_take_two (l : List Turn) (hl : 2 ≤ l.length) :
    (truncateHistory l).take 2 = l.take 2 := by
  unfold truncateHistory
  split
  · rw [List.take_append_of_le_length (by simp [List.length_take]; omega)]
    rw [List.take_take]
    norm_num
  · rfl

/-- The middle component of a double append is a contiguous infix. -/
theorem containsSub_append_middle (l1 l2 l3 : List Char) :
    containsSub l2 (l1 ++ l2 ++ l3) = true := by
  induction l1 with
  | nil =>
    induction l2 with
    | nil => cases l3 <;> simp [containsSub, List.isEmpty]
    | cons c t ih => simp [containsSub, List.isPrefixOf]
  | cons c t ih => simpa [containsSub] using Or.inr ih

/-- The templated refusal contains the block reason as a substring. -/
theorem strContains_blockedReply (reason : String) :
    strContains (blockedReply reason) reason = true := by
  unfold strContains blockedReply
  rw [String.data_append, String.data_append]
  exact containsSub_append_middle _ _ _

/-- The refusal template starts with the letter I whatever the reason. -/
theorem blockedReply_head (reason : String) : (blockedReply reason).data.head? = some 'I' := by
  unfold blockedReply
  rw [String.data_append, String.data_append, List.head?_append, List.head?_append]
  rfl

/-- The missing-text default string is never equal to any instance of the
block-reason refusal template. -/
theorem noTextReply_ne_blockedReply (reason : String) : noTextReply ≠ blockedReply reason := by
  intro hcontra
  have h2 : noTextReply.data.head? = (blockedReply reason).data.head? := by rw [hcontra]
  rw [blockedReply_head] at h2
  exact absurd h2 (by decide)

/-! Claim theorems. -/

/-- C1, counterexample: the claim says every path (the missing-credential
path included) leaves the history exactly 2 entries longer.  On the
missing-credential path `get_bot_response` returns at app.py line 146 before
the model turn is appended, so for the non-FAQ message "hello" with no API
key the history grows from 2 entries to 3, not 4. -/
theorem history_growth_counterexample :
    (get_bot_response none RemoteOutcome.timeout initialGeminiHistory "hello").gemini_history.length
      ≠ initialGeminiHistory.length + 2 := by decide

/-- C1, amended: for a pre-call history within the truncation bound
(at most 2*maxTurns entries), resolution appends exactly the user turn and
the model turn holding the returned reply — except on the missing-credential
path (no FAQ hit and absent/empty key), which appends only the user turn. -/
theorem history_growth_amended (k : Option String) (o : RemoteOutcome) (h : List Turn) (m : String)
    (hlen : h.length ≤ 2 * MAX_HISTORY_TURNS) :
    (faqLookup m = none ∧ apiKeyMissing k = true →
      (get_bot_response k o h m).gemini_history = h ++ [Turn.mk "user" m]) ∧
    (¬(faqLookup m = none ∧ apiKeyMissing k = true) →
      (get_bot_response k o h m).gemini_history
        = h ++ [Turn.mk "user" m, Turn.mk "model" (get_bot_response k o h m).reply]) := by
  constructor
  · rintro ⟨hf, hk⟩
    rw [resolve_nokey_eq k o h m hf hk]
  · intro hnot
    cases hf : faqLookup m with
    | some kv => rw [resolve_faq_eq k o h m kv hf]
    | none =>
      cases hk : apiKeyMissing k with
      | true => exact absurd ⟨hf, hk⟩ hnot
      | false =>
        rw [resolve_remote_eq k o h m hf hk]
        unfold truncateHistory
        rw [if_neg (by simp [MAX_HISTORY_TURNS]; simp [MAX_HISTORY_TURNS] at hlen; omega)]

/-- C1, witness: a concrete remote-path call appends exactly the user and
model turns. -/
theorem history_growth_amended_witness :
    initialGeminiHistory.length ≤ 2 * MAX_HISTORY_TURNS ∧
    (get_bot_response (some "key") RemoteOutcome.timeout initialGeminiHistory "hello").gemini_history
      = initialGeminiHistory ++ [Turn.mk "user" "hello",
          Turn.mk "model" (get_bot_response (some "key") RemoteOutcome.timeout initialGeminiHistory "hello").reply] :=
  ⟨by decide,
   (history_growth_amended (some "key") RemoteOutcome.timeout initialGeminiHistory "hello" (by decide)).2
     (by decide)⟩

/-- C2, counterexample: the claim says the history never exceeds
2*maxTurns+2 entries after any resolution.  The FAQ-hit path returns at
app.py line 141 before the truncation step, so a FAQ hit on a history that
is already at the bound (22 entries) leaves 24 entries, exceeding the bound
and not being collapsed to 22. -/
theorem truncation_counterexample :
    2 * MAX_HISTORY_TURNS + 2 <
      (get_bot_response (some "key") RemoteOutcome.timeout
        (initialGeminiHistory ++ List.replicate 20 (Turn.mk "user" "filler"))
        "contact support").gemini_history.length ∧
    (get_bot_response (some "key") RemoteOutcome.timeout
        (initialGeminiHistory ++ List.replicate 20 (Turn.mk "user" "filler"))
        "contact support").gemini_history.length ≠ 2 * MAX_HISTORY_TURNS + 2 := by decide

/-- C2, amended: on the path that reaches the truncation step (no FAQ hit,
credential present), whenever the history exceeds 2*maxTurns+2 entries after
the model turn is appended, the result has exactly 2*maxTurns+2 entries and
equals the first 2 entries followed by the last 2*maxTurns entries of the
appended history, the first 2 entries staying identical; the FAQ-hit and
missing-credential paths return before truncation. -/
theorem truncation_amended (k : Option String) (o : RemoteOutcome) (h : List Turn) (m : String)
    (hfaq : faqLookup m = none) (hkey : apiKeyMissing k = false)
    (hlen : 2 * MAX_HISTORY_TURNS + 2 < h.length + 2) :
    (get_bot_response k o h m).gemini_history.length = 2 * MAX_HISTORY_TURNS + 2 ∧
    (get_bot_response k o h m).gemini_history
      = (h ++ [Turn.mk "user" m, Turn.mk "model" (get_bot_response k o h m).reply]).take 2
        ++ (h ++ [Turn.mk "user" m, Turn.mk "model" (get_bot_response k o h m).reply]).drop
             (h.length + 2 - 2 * MAX_HISTORY_TURNS) ∧
    (get_bot_response k o h m).gemini_history.take 2 = h.take 2 := by
  rw [resolve_remote_eq k o h m hfaq hkey]
  simp only
  have hgt : (h ++ [Turn.mk "user" m, Turn.mk "model" (classifyOutcome o).bot_reply]).length
      > MAX_HISTORY_TURNS * 2 + 2 := by
    simp [MAX_HISTORY_TURNS] at hlen ⊢; omega
  constructor
  · unfold truncateHistory
    rw [if_pos hgt]
    simp [List.length_take, List.length_drop, MAX_HISTORY_TURNS] at hgt ⊢
    omega
  constructor
  · unfold truncateHistory
    rw [if_pos hgt]
    simp [MAX_HISTORY_TURNS]
  · rw [truncateHistory_take_two _ (by simp)]
    exact List.take_append_of_le_length (by simp [MAX_HISTORY_TURNS] at hlen; omega)

/-- C2, witness: a 21-entry pre-call history on the remote path is collapsed
to exactly 22 entries. -/
theorem truncation_amended_witness :
    (get_bot_response (some "key") RemoteOutcome.timeout
      (initialGeminiHistory ++ List.replicate 19 (Turn.mk "user" "filler")) "hello").gemini_history.length
      = 2 * MAX_HISTORY_TURNS + 2 :=
  (truncation_amended (some "key") RemoteOutcome.timeout
    (initialGeminiHistory ++ List.replicate 19 (Turn.mk "user" "filler")) "hello"
    (by decide) (by decide) (by decide)).1

/-- C3: if a FAQ key is a substring of the lowercased message and no key
earlier in the table's definition order matches, the resolver returns that
key's exact canned answer and no remote request is built or sent. -/
theorem faq_first_match_wins (k : Option String) (o : RemoteOutcome) (h : List Turn) (m : String)
    (pre post : List (String × String)) (kv : String × String)
    (hsplit : FAQS = pre ++ kv :: post)
    (hpre : ∀ e ∈ pre, strContains (lowerStr m) e.1 = false)
    (hkv : strContains (lowerStr m) kv.1 = true) :
    (get_bot_response k o h m).reply = kv.2 ∧ (get_bot_response k o h m).request = none := by
  have hfaq : faqLookup m = some kv := by
    unfold faqLookup
    rw [hsplit, List.find?_append]
    have hnone : pre.find? (fun e => strContains (lowerStr m) e.1) = none :=
      List.find?_eq_none.2 (by intro e he; simp [hpre e he])
    rw [hnone, Option.none_or]
    exact List.find?_cons_of_pos post hkv
  rw [resolve_faq_eq k o h m kv hfaq]
  exact ⟨rfl, rfl⟩

/-- C3, witness: the spec's end-to-end example — the message "How do I
cancel my membership?" hits the second key "cancel my membership" (the first
key does not match) and returns its exact canned answer with no request. -/
theorem faq_first_match_wins_witness :
    (FAQS = FAQS.take 1 ++ (("cancel my membership", "To cancel your membership, please log in to your account, navigate to the 'Membership Details' section, and you should find an option to cancel. If you need further assistance, I can guide you.") : String × String) :: FAQS.drop 2) ∧
    (get_bot_response (some "key") RemoteOutcome.timeout initialGeminiHistory
        "How do I cancel my membership?").reply
      = "To cancel your membership, please log in to your account, navigate to the 'Membership Details' section, and you should find an option to cancel. If you need further assistance, I can guide you." ∧
    (get_bot_response (some "key") RemoteOutcome.timeout initialGeminiHistory
        "How do I cancel my membership?").request = none :=
  ⟨by decide,
   faq_first_match_wins (some "key") RemoteOutcome.timeout initialGeminiHistory
     "How do I cancel my membership?" (FAQS.take 1) (FAQS.drop 2)
     ("cancel my membership", "To cancel your membership, please log in to your account, navigate to the 'Membership Details' section, and you should find an option to cancel. If you need further assistance, I can guide you.")
     (by decide) (by decide) (by decide)⟩

/-- C4: with no FAQ match and an absent (or empty) credential, the resolver
returns the fixed configuration-error fallback, attempts no remote request,
and reports the operator-visible error. -/
theorem missing_key_no_request (k : Option String) (o : RemoteOutcome) (h : List Turn) (m : String)
    (hfaq : faqLookup m = none) (hkey : apiKeyMissing k = true) :
    (get_bot_response k o h m).reply = missingKeyReply ∧
    (get_bot_response k o h m).request = none ∧
    (get_bot_response k o h m).errors
      = ["GEMINI_API_KEY not found. Please set it in your .env file."] := by
  rw [resolve_nokey_eq k o h m hfaq hkey]
  exact ⟨rfl, rfl, rfl⟩

/-- C4, witness: concrete missing-credential call. -/
theorem missing_key_no_request_witness :
    (get_bot_response none RemoteOutcome.timeout initialGeminiHistory "hello").reply = missingKeyReply ∧
    (get_bot_response none RemoteOutcome.timeout initialGeminiHistory "hello").request = none ∧
    (get_bot_response none RemoteOutcome.timeout initialGeminiHistory "hello").errors
      = ["GEMINI_API_KEY not found. Please set it in your .env file."] :=
  missing_key_no_request none RemoteOutcome.timeout initialGeminiHistory "hello" (by decide) (by decide)

/-- C5: every failure class of the remote call maps to its fixed fallback
reply — the timeout fallback for timeout expiry, the connection-trouble
fallback for transport failure and for the non-2xx HTTPError raised by
raise_for_status, and the unexpected-error fallback for any other exception
— so the caller always receives a string, never an exception. -/
theorem error_fallback_mapping (k : Option String) (h : List Turn) (m : String)
    (hfaq : faqLookup m = none) (hkey : apiKeyMissing k = false) :
    (get_bot_response k RemoteOutcome.timeout h m).reply = timeoutReply ∧
    (∀ e, (get_bot_response k (RemoteOutcome.httpError e) h m).reply = connectionReply) ∧
    (∀ e, (get_bot_response k (RemoteOutcome.requestError e) h m).reply = connectionReply) ∧
    (∀ e, (get_bot_response k (RemoteOutcome.otherError e) h m).reply = unexpectedErrorReply) := by
  refine ⟨?_, fun e => ?_, fun e => ?_, fun e => ?_⟩ <;>
    · rw [resolve_remote_eq _ _ _ _ hfaq hkey]
      rfl

/-- C5, witness: the four failure classes at concrete inputs. -/
theorem error_fallback_mapping_witness :
    (get_bot_response (some "key") RemoteOutcome.timeout initialGeminiHistory "hello").reply = timeoutReply ∧
    (get_bot_response (some "key") (RemoteOutcome.httpError "500") initialGeminiHistory "hello").reply = connectionReply ∧
    (get_bot_response (some "key") (RemoteOutcome.requestError "conn reset") initialGeminiHistory "hello").reply = connectionReply ∧
    (get_bot_response (some "key") (RemoteOutcome.otherError "boom") initialGeminiHistory "hello").reply = unexpectedErrorReply := by
  have hmap := error_fallback_mapping (some "key") initialGeminiHistory "hello" (by decide) (by decide)
  exact ⟨hmap.1, hmap.2.1 "500", hmap.2.2.1 "conn reset", hmap.2.2.2 "boom"⟩

/-- C6: a received response with no usable candidate but carrying a
(non-empty) promptFeedback.blockReason yields the fixed templated refusal,
which contains the literal reason as a substring; a warning naming the
reason is emitted and no fatal error is reported. -/
theorem blocked_reason_refusal (k : Option String) (h : List Turn) (m : String)
    (result : GeminiResult) (reason : String)
    (hfaq : faqLookup m = none) (hkey : apiKeyMissing k = false)
    (hnc : firstPartOfResult result = none)
    (hbr : blockReasonOfResult result = some reason) :
    (get_bot_response k (RemoteOutcome.response result) h m).reply = blockedReply reason ∧
    strContains (get_bot_response k (RemoteOutcome.response result) h m).reply reason = true ∧
    (get_bot_response k (RemoteOutcome.response result) h m).warnings
      = ["Gemini API blocked prompt. Reason: " ++ reason] ∧
    (get_bot_response k (RemoteOutcome.response result) h m).errors = [] := by
  have hc : classifyOutcome (RemoteOutcome.response result) =
      { bot_reply := blockedReply reason,
        warnings := ["Gemini API blocked prompt. Reason: " ++ reason], errors := [] } := by
    simp only [classifyOutcome, hnc, hbr]
  rw [resolve_remote_eq _ _ _ _ hfaq hkey, hc]
  exact ⟨rfl, strContains_blockedReply reason, rfl, rfl⟩

/-- C6, witness: a mocked response blocked with reason SAFETY. -/
theorem blocked_reason_refusal_witness :
    (get_bot_response (some "key")
        (RemoteOutcome.response ⟨none, some ⟨some "SAFETY"⟩⟩) initialGeminiHistory "hello").reply
      = blockedReply "SAFETY" ∧
    strContains (get_bot_response (some "key")
        (RemoteOutcome.response ⟨none, some ⟨some "SAFETY"⟩⟩) initialGeminiHistory "hello").reply "SAFETY" = true ∧
    (get_bot_response (some "key")
        (RemoteOutcome.response ⟨none, some ⟨some "SAFETY"⟩⟩) initialGeminiHistory "hello").warnings
      = ["Gemini API blocked prompt. Reason: " ++ "SAFETY"] ∧
    (get_bot_response (some "key")
        (RemoteOutcome.response ⟨none, some ⟨some "SAFETY"⟩⟩) initialGeminiHistory "hello").errors = [] :=
  blocked_reason_refusal (some "key") initialGeminiHistory "hello"
    ⟨none, some ⟨some "SAFETY"⟩⟩ "SAFETY" (by decide) (by decide) (by decide) (by decide)

/-- C7: every remote request carries the full current history (user turn
included) as contents, the exact fixed generation configuration
temperature 0.6, topK 1, topP 0.95, maxOutputTokens 512, the four
harm-category safety settings each at BLOCK_MEDIUM_AND_ABOVE, and a
30-second timeout, as one call. -/
theorem request_payload_shape (k : Option String) (o : RemoteOutcome) (h : List Turn) (m : String)
    (hfaq : faqLookup m = none) (hkey : apiKeyMissing k = false) :
    (get_bot_response k o h m).request = some
      { payload := { contents := h ++ [Turn.mk "user" m],
                     generationConfig := { temperature := 0.6, topK := 1, topP := 0.95,
                                           maxOutputTokens := 512 },
                     safetySettings := [ ⟨"HARM_CATEGORY_HARASSMENT", "BLOCK_MEDIUM_AND_ABOVE"⟩,
                                         ⟨"HARM_CATEGORY_HATE_SPEECH", "BLOCK_MEDIUM_AND_ABOVE"⟩,
                                         ⟨"HARM_CATEGORY_SEXUALLY_EXPLICIT", "BLOCK_MEDIUM_AND_ABOVE"⟩,
                                         ⟨"HARM_CATEGORY_DANGEROUS_CONTENT", "BLOCK_MEDIUM_AND_ABOVE"⟩ ] },
        timeoutSeconds := 30 } := by
  rw [resolve_remote_eq _ _ _ _ hfaq hkey]
  rfl

/-- C7, witness: the concrete request for a non-FAQ message on the fresh
session history. -/
theorem request_payload_shape_witness :
    (get_bot_response (some "key") RemoteOutcome.timeout initialGeminiHistory "hello").request = some
      { payload := { contents := initialGeminiHistory ++ [Turn.mk "user" "hello"],
                     generationConfig := { temperature := 0.6, topK := 1, topP := 0.95,
                                           maxOutputTokens := 512 },
                     safetySettings := [ ⟨"HARM_CATEGORY_HARASSMENT", "BLOCK_MEDIUM_AND_ABOVE"⟩,
                                         ⟨"HARM_CATEGORY_HATE_SPEECH", "BLOCK_MEDIUM_AND_ABOVE"⟩,
                                         ⟨"HARM_CATEGORY_SEXUALLY_EXPLICIT", "BLOCK_MEDIUM_AND_ABOVE"⟩,
                                         ⟨"HARM_CATEGORY_DANGEROUS_CONTENT", "BLOCK_MEDIUM_AND_ABOVE"⟩ ] },
        timeoutSeconds := 30 } :=
  request_payload_shape (some "key") RemoteOutcome.timeout initialGeminiHistory "hello"
    (by decide) (by decide)

/-- C8: the session starts with the fixed priming pair as its first two
history entries, and every resolution — append on any path, truncation
included — leaves the first two entries of the history unchanged. -/
theorem priming_pair_preserved :
    initialGeminiHistory = [primingUserTurn, primingModelTurn] ∧
    ∀ (k : Option String) (o : RemoteOutcome) (h : List Turn) (m : String),
      2 ≤ h.length →
      (get_bot_response k o h m).gemini_history.take 2 = h.take 2 := by
  refine ⟨rfl, fun k o h m hh => ?_⟩
  cases hf : faqLookup m with
  | some kv =>
    rw [resolve_faq_eq k o h m kv hf]
    exact List.take_append_of_le_length hh
  | none =>
    cases hk : apiKeyMissing k with
    | true =>
      rw [resolve_nokey_eq k o h m hf hk]
      exact List.take_append_of_le_length hh
    | false =>
      rw [resolve_remote_eq k o h m hf hk]
      have h2 : (2 : Nat) ≤ (h ++ [Turn.mk "user" m, Turn.mk "model" (classifyOutcome o).bot_reply]).length := by
        simp
      rw [truncateHistory_take_two _ h2]
      exact List.take_append_of_le_length hh

/-- C8, witness: a concrete resolution on the fresh session history keeps
the priming pair in place. -/
theorem priming_pair_preserved_witness :
    2 ≤ initialGeminiHistory.length ∧
    (get_bot_response (some "key") RemoteOutcome.timeout initialGeminiHistory "hello").gemini_history.take 2
      = initialGeminiHistory.take 2 :=
  ⟨by decide, priming_pair_preserved.2 (some "key") RemoteOutcome.timeout initialGeminiHistory "hello" (by decide)⟩

/-- C9, code evaluation at the failing input: when sqlite3.connect itself
fails, save_message_to_db reports the database error but then raises
UnboundLocalError out of its finally block instead of returning normally
(the claim and the spec say persistence failure never propagates); an
insert/commit failure after a successful connect is handled as claimed. -/
theorem db_connect_failure_raises :
    (save_message_to_db "session" "user" "hi"
        (DbOutcome.connectError "unable to open database file")).raised
      = some "UnboundLocalError: local variable 'conn' referenced before assignment" ∧
    (save_message_to_db "session" "user" "hi"
        (DbOutcome.connectError "unable to open database file")).reported
      = ["Database error during save: unable to open database file"] ∧
    (save_message_to_db "session" "user" "hi" (DbOutcome.insertError "disk I/O error")).raised
      = none := by
  exact ⟨rfl, rfl, rfl⟩

/-- C10: a response whose first candidate has a non-empty parts list whose
first part lacks a text field yields the distinct fixed string of app.py
line 174, with no warning and no error emitted; that string differs from the
unexpected-response fallback and from every instance of the block-reason
refusal. -/
theorem missing_text_field_fallback (k : Option String) (h : List Turn) (m : String)
    (result : GeminiResult) (c : Candidate) (cs : List Candidate) (ct : Content)
    (p : Part) (ps : List Part)
    (hfaq : faqLookup m = none) (hkey : apiKeyMissing k = false)
    (hcand : result.candidates = some (c :: cs))
    (hct : c.content = some ct)
    (hparts : ct.parts = some (p :: ps))
    (htext : p.text = none) :
    (get_bot_response k (RemoteOutcome.response result) h m).reply = noTextReply ∧
    (get_bot_response k (RemoteOutcome.response result) h m).warnings = [] ∧
    (get_bot_response k (RemoteOutcome.response result) h m).errors = [] ∧
    noTextReply ≠ unexpectedReply ∧
    (∀ reason, noTextReply ≠ blockedReply reason) := by
  have hfp : firstPartOfResult result = some p := by
    simp only [firstPartOfResult, hcand, hct, hparts]
  have hc : classifyOutcome (RemoteOutcome.response result) =
      { bot_reply := noTextReply, warnings := [], errors := [] } := by
    simp only [classifyOutcome, hfp, htext, Option.getD_none]
  rw [resolve_remote_eq _ _ _ _ hfaq hkey, hc]
  exact ⟨rfl, rfl, rfl, by decide, noTextReply_ne_blockedReply⟩

/-- C10, witness: a concrete response with one candidate, one part and no
text field. -/
theorem missing_text_field_fallback_witness :
    (get_bot_response (some "key")
        (RemoteOutcome.response ⟨some [⟨some ⟨some [⟨none⟩]⟩⟩], none⟩)
        initialGeminiHistory "hello").reply = noTextReply ∧
    (get_bot_response (some "key")
        (RemoteOutcome.response ⟨some [⟨some ⟨some [⟨none⟩]⟩⟩], none⟩)
        initialGeminiHistory "hello").warnings = [] :=
  have hall := missing_text_field_fallback (some "key") initialGeminiHistory "hello"
    ⟨some [⟨some ⟨some [⟨none⟩]⟩⟩], none⟩ ⟨some ⟨some [⟨none⟩]⟩⟩ [] ⟨some [⟨none⟩]⟩ ⟨none⟩ []
    (by decide) (by decide) rfl rfl rfl rfl
  ⟨hall.1, hall.2.1⟩

end ChatApp
